import Mathlib

/-!
Verification of the Google Workspace outgoing-sync user client
(`authentik/enterprise/providers/google_workspace/clients/users.py`)
against its natural-language specification.

The client is embedded shallowly: Python dictionaries become association
lists over a JSON-like `Value` type, the Django link table
(`GoogleWorkspaceProviderUser`) becomes an explicit list of `LinkRecord`s
threaded through each operation, and the Google directory service becomes
an oracle (`Directory`) whose responses are inputs.  Exceptions become
`Except` results; each operation additionally returns the trace of remote
calls it issued, so that statements such as "the second run does not call
create" are expressible.
-/

namespace GW

/-- JSON-like values exchanged with the directory API (Python dict / list /
str / None).  Other scalar payloads are irrelevant to the claims and are
represented by `str`. -/
inductive Value where
  | null : Value
  | str (s : String) : Value
  | obj (fields : List (String × Value)) : Value
  | arr (elems : List Value) : Value
deriving Inhabited

/-- A Python dict used as a Google user document: an insertion-ordered
association list. -/
abbrev GDict := List (String × Value)

/-- First binding of a key in a dict, Python `d[k]` / `k in d`. -/
def lookupField (k : String) : GDict → Option Value
  | [] => none
  | (k', v) :: rest => if k' = k then some v else lookupField k rest

mutual

/-- `deepmerge.always_merger` value strategy: dicts merge recursively,
lists append, anything else is overridden by the newer value. -/
def mergeValue : Value → Value → Value
  | Value.obj a, Value.obj b => Value.obj (mergeFields a b)
  | Value.arr a, Value.arr b => Value.arr (a ++ b)
  | _, b => b
termination_by _ y => (sizeOf y, 0)
decreasing_by all_goals (simp_wf; omega)

/-- Merge every field of the second dict into the first, in order. -/
def mergeFields (a : GDict) : GDict → GDict
  | [] => a
  | (k, v) :: rest => mergeFields (mergeInto a k v) rest
termination_by l => (sizeOf l, 0)
decreasing_by all_goals (simp_wf; omega)

/-- `base[k] = strategy(base[k], v)` of the dict-merge strategy: replace the
existing binding by the merged value, or append the new binding. -/
def mergeInto : GDict → String → Value → GDict
  | [], k, v => [(k, v)]
  | (k', v') :: t, k, v =>
      if k' = k then (k', mergeValue v' v) :: t else (k', v') :: mergeInto t k v
termination_by fs _ v => (sizeOf v + 1, sizeOf fs)
decreasing_by all_goals (simp_wf; omega)

end

/-- Modelled from the spec: `delete_none_values`
(`authentik.policies.utils`, not among the shown sources) strips all
fields whose value is null before the document is returned, object fields
included. -/
def deleteNoneFields : GDict → GDict
  | [] => []
  | (k, v) :: rest =>
    match v with
    | Value.null => deleteNoneFields rest
    | Value.obj fs => (k, Value.obj (deleteNoneFields fs)) :: deleteNoneFields rest
    | _ => (k, v) :: deleteNoneFields rest
termination_by l => sizeOf l
decreasing_by all_goals (simp_wf; try omega)

/-- The error taxonomy of the sync layer, as classified by the directory
client boundary: `NotFoundSyncException`, `ObjectExistsSyncException`,
`TransientSyncException` and `StopSync`. -/
inductive SyncError where
  | notFound
  | objectExists
  | transient
  | stopSync
deriving Repr, DecidableEq, Inhabited

/-- An exception escaping a client method: either a sync-layer error or a
plain Python error (`KeyError` from a dict subscript, `TypeError` from
using a non-dict/non-list where one is expected). -/
inductive PyError where
  | sync (e : SyncError)
  | keyError (k : String)
  | typeError
deriving Repr, DecidableEq, Inhabited

/-- A local `User` object: primary key plus the canonical email attribute. -/
structure GUser where
  pk : Nat
  email : String
deriving Repr, DecidableEq, Inhabited

/-- A row of `GoogleWorkspaceProviderUser`: the durable link
(provider, user) → external identifier.  The identifier is stored as the
value taken from the API response, hence a `Value`. -/
structure LinkRecord where
  provider : Nat
  user : Nat
  id : Value
deriving Inhabited

/-- Result of evaluating one property mapping: a value (`none` meaning the
mapping produced `None` and is skipped), or an evaluation error
(`PropertyMappingExpressionException` / `ValueError`). -/
inductive MappingResult where
  | ok (v : Option Value)
  | errored
deriving Inhabited

/-- A property mapping attached to the provider: its stable name (used for
ordering), whether it is a `GoogleWorkspaceProviderMapping` (the
`isinstance` filter), and its evaluation on a user (the provider context
is fixed per client). -/
structure Mapping where
  name : String
  isGoogleMapping : Bool
  evaluate : GUser → MappingResult

/-- The provider: primary key and its attached property mappings (in
database order, sorted by the client before evaluation). -/
structure Provider where
  pk : Nat
  propertyMappings : List Mapping

/-- The sync client configuration: the provider and the email-domain
validity predicate used by `check_email_valid`. -/
structure Client where
  provider : Provider
  emailValid : String → Bool

/-- One remote call issued through the directory service. -/
inductive RemoteCall where
  | insert (body : GDict)
  | update (key : Value) (body : GDict)
  | delete (key : Value)

/-- The directory service as an oracle: the response of each remote
operation is an input to the model, already classified into the sync
error taxonomy by the `_request` boundary. -/
structure Directory where
  insert : GDict → Except SyncError Value
  update : Value → GDict → Except SyncError Value
  delete : Value → Except SyncError Value

/-- `filter(provider=..., user=...).first()` on the link table. -/
def findLink (p u : Nat) : List LinkRecord → Option LinkRecord
  | [] => none
  | r :: rs => if r.provider = p ∧ r.user = u then some r else findLink p u rs

/-- `google_user.delete()`: remove the row found by `findLink`. -/
def removeFirstLink (p u : Nat) : List LinkRecord → List LinkRecord
  | [] => []
  | r :: rs => if r.provider = p ∧ r.user = u then rs else r :: removeFirstLink p u rs

/-- Number of link rows for (provider, user). -/
def countLinks (p u : Nat) : List LinkRecord → Nat
  | [] => 0
  | r :: rs => (if r.provider = p ∧ r.user = u then 1 else 0) + countLinks p u rs

/-- Stable placement of a mapping after all mappings of smaller-or-equal
name. -/
def insertMapping (m : Mapping) : List Mapping → List Mapping
  | [] => [m]
  | x :: xs => if x.name ≤ m.name then x :: insertMapping m xs else m :: x :: xs

/-- `property_mappings.all().order_by("name")`: sort by mapping name. -/
def sortMappings : List Mapping → List Mapping
  | [] => []
  | m :: ms => insertMapping m (sortMappings ms)

namespace GoogleWorkspaceUserClient

/-- The mapping loop of `to_schema`: evaluate each Google mapping in order,
skip `None` results, deep-merge dict fragments into the accumulator
(`always_merger.merge` mutates the accumulator dict in place, so a
non-dict fragment leaves it unchanged), and abort the whole sync with
`StopSync` when a mapping evaluation raises. -/
def evalMappings (u : GUser) : List Mapping → GDict → Except SyncError GDict
  | [], raw => .ok raw
  | m :: ms, raw =>
    if m.isGoogleMapping then
      match m.evaluate u with
      | .errored => .error .stopSync
      | .ok none => evalMappings u ms raw
      | .ok (some (Value.obj fs)) => evalMappings u ms (mergeFields raw fs)
      | .ok (some _) => evalMappings u ms raw
    else evalMappings u ms raw

/-- `to_schema(obj)`: build the Google user document.  Raises `StopSync`
when the merged document is empty; defaults `primaryEmail` from the
user's email when the key is absent; strips null fields last. -/
def to_schema (c : Client) (u : GUser) : Except SyncError GDict :=
  match evalMappings u (sortMappings c.provider.propertyMappings) [] with
  | .error e => .error e
  | .ok raw =>
    if raw.isEmpty then .error .stopSync
    else
      let raw' :=
        if (lookupField "primaryEmail" raw).isNone then
          raw ++ [("primaryEmail", Value.str u.email)]
        else raw
      .ok (deleteNoneFields raw')

/-- The list comprehension `[x["address"] for x in ...]`: each element must
be a dict with an `"address"` key. -/
def collectAddresses : List Value → Except PyError (List Value)
  | [] => .ok []
  | Value.obj fs :: xs =>
    match lookupField "address" fs with
    | some a => (collectAddresses xs).map (fun rest => a :: rest)
    | none => .error (.keyError "address")
  | _ :: _ => .error .typeError

/-- `google_user.get("emails", [])` followed by the address comprehension. -/
def emailAddresses (gu : GDict) : Except PyError (List Value) :=
  match lookupField "emails" gu with
  | none => .ok []
  | some (Value.arr xs) => collectAddresses xs
  | some _ => .error .typeError

/-- Modelled from the spec: `check_email_valid` (defined on the base sync
client, not among the shown sources) validates that every declared
address is syntactically valid for the configured domains, failing fast
with a permanent error before any network call. -/
def checkEmailValid (c : Client) (addrs : List Value) : Except SyncError Unit :=
  if addrs.all (fun a =>
      match a with
      | Value.str s => c.emailValid s
      | _ => false) then
    .ok ()
  else .error .stopSync

/-- The prelude shared by `_create` and `_update`: subscript
`google_user["primaryEmail"]` (KeyError when the key is missing), build
the declared address list, and run `check_email_valid`.  Returns the
primary email value. -/
def schemaChecks (c : Client) (gu : GDict) : Except PyError Value :=
  match lookupField "primaryEmail" gu with
  | none => .error (.keyError "primaryEmail")
  | some pe =>
    match emailAddresses gu with
    | .error e => .error e
    | .ok addrs =>
      match checkEmailValid c (pe :: addrs) with
      | .error e => .error (.sync e)
      | .ok _ => .ok pe

/-- `_create(user)`: build and validate the document, call the directory
insert inside a transaction; `ObjectExists` adopts the remote object by
linking `user.email`; any other error propagates unchanged with no link
written (the transaction aborts); on success the link id is
`response["primaryEmail"]`. -/
def _create (c : Client) (d : Directory) (links : List LinkRecord) (user : GUser) :
    Except PyError Unit × List LinkRecord × List RemoteCall :=
  match to_schema c user with
  | .error e => (.error (.sync e), links, [])
  | .ok gu =>
    match schemaChecks c gu with
    | .error e => (.error e, links, [])
    | .ok _ =>
      match d.insert gu with
      | .error .objectExists =>
          (.ok (), links ++ [⟨c.provider.pk, user.pk, Value.str user.email⟩],
            [.insert gu])
      | .error e => (.error (.sync e), links, [.insert gu])
      | .ok response =>
        match response with
        | Value.obj rf =>
          match lookupField "primaryEmail" rf with
          | none => (.error (.keyError "primaryEmail"), links, [.insert gu])
          | some idv =>
              (.ok (), links ++ [⟨c.provider.pk, user.pk, idv⟩], [.insert gu])
        | _ => (.error .typeError, links, [.insert gu])

/-- `_update(user, connection)`: build and validate the document, call the
directory update keyed by the stored external id; the link table is not
touched. -/
def _update (c : Client) (d : Directory) (user : GUser) (conn : LinkRecord) :
    Except PyError Unit × List RemoteCall :=
  match to_schema c user with
  | .error e => (.error (.sync e), [])
  | .ok gu =>
    match schemaChecks c gu with
    | .error e => (.error e, [])
    | .ok _ =>
      match d.update conn.id gu with
      | .error e => (.error (.sync e), [.update conn.id gu])
      | .ok _ => (.ok (), [.update conn.id gu])

/-- `write(obj)`: no link → create; link → update, and on
`NotFoundSyncException` delete the stale link and fall through to create;
any other update error propagates. -/
def write (c : Client) (d : Directory) (links : List LinkRecord) (obj : GUser) :
    Except PyError Unit × List LinkRecord × List RemoteCall :=
  match findLink c.provider.pk obj.pk links with
  | none => _create c d links obj
  | some gu =>
    match _update c d obj gu with
    | (.ok _, calls) => (.ok (), links, calls)
    | (.error (.sync .notFound), calls) =>
        let links' := removeFirstLink c.provider.pk obj.pk links
        let (r, links'', calls') := _create c d links' obj
        (r, links'', calls ++ calls')
    | (.error e, calls) => (.error e, links, calls)

/-- `delete(obj)`: no link → no-op returning `None`; otherwise call the
remote delete and remove the link in one transaction — an exception from
the remote call aborts the transaction, leaving the link in place, and
propagates. -/
def delete (c : Client) (d : Directory) (links : List LinkRecord) (obj : GUser) :
    Except PyError (Option Value) × List LinkRecord × List RemoteCall :=
  match findLink c.provider.pk obj.pk links with
  | none => (.ok none, links, [])
  | some gu =>
    match d.delete gu.id with
    | .error e => (.error (.sync e), links, [.delete gu.id])
    | .ok response =>
        (.ok (some response), removeFirstLink c.provider.pk obj.pk links,
          [.delete gu.id])

end GoogleWorkspaceUserClient

/-! Concrete fixtures used by witnesses and counterexamples. -/

open GoogleWorkspaceUserClient

/-- A local user. -/
def u0 : GUser := ⟨1, "bob@example.com"⟩

/-- A mapping producing a plain given name. -/
def m0 : Mapping :=
  ⟨"m", true, fun _ => .ok (some (.obj [("givenName", .str "Bob")]))⟩

/-- A client whose provider has the single mapping `m0` and accepts every
email domain. -/
def c0 : Client := ⟨⟨7, [m0]⟩, fun _ => true⟩

/-- The document `to_schema c0 u0` builds. -/
def gu0 : GDict :=
  [("givenName", .str "Bob"), ("primaryEmail", .str "bob@example.com")]

/-- A directory whose insert succeeds echoing the body and whose update and
delete succeed. -/
def d0 : Directory :=
  ⟨fun body => .ok (.obj body), fun _ _ => .ok .null, fun _ => .ok .null⟩

/-- The sort, mapping evaluation, merge/strip pipeline of `to_schema` on
the fixture client. -/
theorem to_schema_c0 : to_schema c0 u0 = .ok gu0 := by
  simp [to_schema, c0, m0, u0, gu0, sortMappings, insertMapping, evalMappings,
    mergeFields, mergeInto, mergeValue, deleteNoneFields, lookupField]

example : schemaChecks c0 gu0 = .ok (.str "bob@example.com") := rfl

/-! Helper lemmas about the link table. -/

/-- A link table with zero rows for (provider, user) yields no hit. -/
theorem findLink_none_of_countLinks_zero (p u : Nat) (links : List LinkRecord)
    (h : countLinks p u links = 0) : findLink p u links = none := by
  induction links with
  | nil => rfl
  | cons r rs ih =>
    by_cases hm : r.provider = p ∧ r.user = u
    · simp [countLinks, hm] at h
    · simp only [findLink, if_neg hm]
      exact ih (by simpa [countLinks, hm] using h)

/-- Appending a matching row to a table with no hit makes it the hit. -/
theorem findLink_append_hit (p u : Nat) (links : List LinkRecord)
    (r : LinkRecord) (h : findLink p u links = none)
    (hp : r.provider = p) (hu : r.user = u) :
    findLink p u (links ++ [r]) = some r := by
  induction links with
  | nil => simp [findLink, hp, hu]
  | cons x xs ih =>
    by_cases hm : x.provider = p ∧ x.user = u
    · simp [findLink, if_pos hm] at h
    · simp only [findLink, if_neg hm] at h ⊢
      simpa [findLink] using ih h

/-- Row counts add over appended tables. -/
theorem countLinks_append (p u : Nat) (xs ys : List LinkRecord) :
    countLinks p u (xs ++ ys) = countLinks p u xs + countLinks p u ys := by
  induction xs with
  | nil => simp [countLinks]
  | cons x t ih => simp [countLinks, ih]; omega

/-! Claim theorems. -/

/-- C7: for every user of a provider with no property mappings attached
(so the accumulated document is empty), `write` raises `StopSync` and the
link table is unchanged (no link record is created). -/
theorem write_no_mappings_stopsync (c : Client) (d : Directory)
    (links : List LinkRecord) (u : GUser)
    (hm : c.provider.propertyMappings = []) :
    (write c d links u).1 = .error (.sync .stopSync) ∧
    (write c d links u).2.1 = links := by
  have hts : to_schema c u = .error .stopSync := by
    simp [to_schema, hm, sortMappings, evalMappings]
  cases hfind : findLink c.provider.pk u.pk links with
  | none => simp [write, hfind, _create, hts]
  | some conn => simp [write, hfind, _update, hts]

/-- A client whose provider has no property mappings. -/
def c7c : Client := ⟨⟨7, []⟩, fun _ => true⟩

theorem write_no_mappings_stopsync_witness :
    (write c7c d0 [] u0).1 = .error (.sync .stopSync) ∧
    (write c7c d0 [] u0).2.1 = [] :=
  write_no_mappings_stopsync c7c d0 [] u0 rfl

/-- C3: for every user with no existing link record, when the directory
insert reports `ObjectExists`, `write` returns without error and a link
record is appended whose external identifier is the user's canonical
email address. -/
theorem create_objectExists_adopts_link (c : Client) (d : Directory)
    (links : List LinkRecord) (u : GUser) (gu : GDict) (pe : Value)
    (h0 : findLink c.provider.pk u.pk links = none)
    (hts : to_schema c u = .ok gu)
    (hchk : schemaChecks c gu = .ok pe)
    (hins : d.insert gu = .error .objectExists) :
    (write c d links u).1 = .ok () ∧
    (write c d links u).2.1 =
      links ++ [⟨c.provider.pk, u.pk, Value.str u.email⟩] := by
  simp [write, h0, _create, hts, hchk, hins]

/-- A directory whose insert reports the object already exists. -/
def dExists : Directory :=
  ⟨fun _ => .error .objectExists, fun _ _ => .ok .null, fun _ => .ok .null⟩

theorem create_objectExists_adopts_link_witness :
    (write c0 dExists [] u0).1 = .ok () ∧
    (write c0 dExists [] u0).2.1 =
      [⟨7, 1, Value.str "bob@example.com"⟩] :=
  create_objectExists_adopts_link c0 dExists [] u0 gu0
    (.str "bob@example.com") rfl to_schema_c0 rfl rfl

/-- C8: for every user on the create path (no existing link record), when
the directory insert reports a transient error, that error propagates to
the caller unchanged and the link table is untouched. -/
theorem create_transient_propagates (c : Client) (d : Directory)
    (links : List LinkRecord) (u : GUser) (gu : GDict) (pe : Value)
    (h0 : findLink c.provider.pk u.pk links = none)
    (hts : to_schema c u = .ok gu)
    (hchk : schemaChecks c gu = .ok pe)
    (hins : d.insert gu = .error .transient) :
    (write c d links u).1 = .error (.sync .transient) ∧
    (write c d links u).2.1 = links := by
  simp [write, h0, _create, hts, hchk, hins]

/-- A directory whose insert reports a transient failure. -/
def dTransient : Directory :=
  ⟨fun _ => .error .transient, fun _ _ => .ok .null, fun _ => .ok .null⟩

theorem create_transient_propagates_witness :
    (write c0 dTransient [] u0).1 = .error (.sync .transient) ∧
    (write c0 dTransient [] u0).2.1 = [] :=
  create_transient_propagates c0 dTransient [] u0 gu0
    (.str "bob@example.com") rfl to_schema_c0 rfl rfl

/-- C9 (amended): for every user on the create path, an insert error other
than `ObjectExists` is propagated to the caller unchanged — a `StopSync`
from the directory client propagates as `StopSync`, but a `NotFound` (or
`Transient`) propagates as itself, not as `StopSync` — and no link record
is created. -/
theorem create_other_error_unchanged (c : Client) (d : Directory)
    (links : List LinkRecord) (u : GUser) (gu : GDict) (pe : Value)
    (e : SyncError)
    (h0 : findLink c.provider.pk u.pk links = none)
    (hts : to_schema c u = .ok gu)
    (hchk : schemaChecks c gu = .ok pe)
    (hne : e ≠ SyncError.objectExists)
    (hins : d.insert gu = .error e) :
    (write c d links u).1 = .error (.sync e) ∧
    (write c d links u).2.1 = links := by
  cases e with
  | objectExists => exact absurd rfl hne
  | notFound => simp [write, h0, _create, hts, hchk, hins]
  | transient => simp [write, h0, _create, hts, hchk, hins]
  | stopSync => simp [write, h0, _create, hts, hchk, hins]

/-- A directory whose insert reports `NotFound`. -/
def dNotFoundIns : Directory :=
  ⟨fun _ => .error .notFound, fun _ _ => .ok .null, fun _ => .ok .null⟩

theorem create_other_error_unchanged_witness :
    (write c0 dNotFoundIns [] u0).1 = .error (.sync .notFound) ∧
    (write c0 dNotFoundIns [] u0).2.1 = [] :=
  create_other_error_unchanged c0 dNotFoundIns [] u0 gu0
    (.str "bob@example.com") .notFound rfl to_schema_c0 rfl
    (by simp) rfl

/-- Full evaluation of `write` when no link exists and the insert fails
with an error other than `ObjectExists`. -/
theorem write_eq_of_insert_error (c : Client) (d : Directory)
    (links : List LinkRecord) (u : GUser) (gu : GDict) (pe : Value)
    (e : SyncError)
    (h0 : findLink c.provider.pk u.pk links = none)
    (hts : to_schema c u = .ok gu)
    (hchk : schemaChecks c gu = .ok pe)
    (hne : e ≠ SyncError.objectExists)
    (hins : d.insert gu = .error e) :
    write c d links u = (.error (.sync e), links, [.insert gu]) := by
  cases e with
  | objectExists => exact absurd rfl hne
  | notFound => simp [write, h0, _create, hts, hchk, hins]
  | transient => simp [write, h0, _create, hts, hchk, hins]
  | stopSync => simp [write, h0, _create, hts, hchk, hins]

/-- C9 counterexample: with the insert reporting `NotFound`, `write`
propagates `NotFound` itself — which is not `StopSync` — so the claim
that any non-`ObjectExists`, non-`Transient` error surfaces as `StopSync`
fails at this input. -/
theorem create_notFound_not_stopsync_cex :
    (write c0 dNotFoundIns [] u0).1 = .error (.sync .notFound) ∧
    (write c0 dNotFoundIns [] u0).1 ≠ .error (.sync .stopSync) ∧
    (write c0 dNotFoundIns [] u0).2.1 = [] := by
  have h : write c0 dNotFoundIns [] u0 =
      (.error (.sync .notFound), [], [.insert gu0]) :=
    write_eq_of_insert_error c0 dNotFoundIns [] u0 gu0
      (.str "bob@example.com") .notFound rfl to_schema_c0 rfl
      (by simp) rfl
  rw [h]
  refine ⟨rfl, ?_, rfl⟩
  simp

/-! The null-primaryEmail scenario (C5, C10). -/

/-- A mapping producing `{"primaryEmail": None, "nickName": "Bob"}`. -/
def m5 : Mapping :=
  ⟨"m", true, fun _ =>
    .ok (some (.obj [("primaryEmail", .null), ("nickName", .str "Bob")]))⟩

/-- The user of the null-primaryEmail scenario. -/
def u5 : GUser := ⟨5, "bob@example.com"⟩

/-- A client whose provider carries only `m5`. -/
def c5 : Client := ⟨⟨9, [m5]⟩, fun _ => true⟩

/-- Evaluation of `to_schema` on the null-primaryEmail scenario: the key is
present (mapped to null) when membership is tested, so the default fill is
skipped, and the null binding is then stripped. -/
theorem to_schema_c5_eq : to_schema c5 u5 = .ok [("nickName", Value.str "Bob")] := by
  simp [to_schema, c5, m5, u5, sortMappings, insertMapping, evalMappings,
    mergeFields, mergeInto, mergeValue, deleteNoneFields, lookupField]

/-- C5: at the failing input — mappings producing
`{"primaryEmail": None, "nickName": "Bob"}` — `to_schema` returns exactly
`{"nickName": "Bob"}`: the membership test sees the null binding and skips
the default fill, and the null stripping then removes the key entirely,
contrary to the claimed `{"nickName": "Bob", "primaryEmail": <email>}`. -/
theorem to_schema_null_primaryEmail_eval :
    to_schema c5 u5 = .ok [("nickName", Value.str "Bob")] ∧
    lookupField "primaryEmail" [("nickName", Value.str "Bob")] = none :=
  ⟨to_schema_c5_eq, rfl⟩

/-- Full evaluation of `write` when no link exists and the document fails
the `primaryEmail` subscript / validation prelude of `_create`. -/
theorem write_eq_of_schemaChecks_error (c : Client) (d : Directory)
    (links : List LinkRecord) (u : GUser) (gu : GDict) (er : PyError)
    (h0 : findLink c.provider.pk u.pk links = none)
    (hts : to_schema c u = .ok gu)
    (hchk : schemaChecks c gu = .error er) :
    write c d links u = (.error er, links, []) := by
  simp [write, h0, _create, hts, hchk]

/-- C10: for the user whose mappings produce a document with
`primaryEmail` present but null, `to_schema` returns a document with no
`primaryEmail` key at all, and `write` (through `_create`) fails with a
`KeyError` — an error outside the sync taxonomy — before any remote call
is made. -/
theorem write_missing_primaryEmail_keyError :
    to_schema c5 u5 = .ok [("nickName", Value.str "Bob")] ∧
    lookupField "primaryEmail" [("nickName", Value.str "Bob")] = none ∧
    write c5 d0 [] u5 = (.error (.keyError "primaryEmail"), [], []) :=
  ⟨to_schema_c5_eq, rfl,
    write_eq_of_schemaChecks_error c5 d0 [] u5 [("nickName", .str "Bob")]
      (.keyError "primaryEmail") rfl to_schema_c5_eq rfl⟩

/-! Mapping-order merge (C6). -/

/-- C6: when the attached mappings, taken in the deterministic
sorted-by-name order, produce `{"name": "A"}` and then `{"name": "B"}`,
the merged document's `name` is `"B"` (order-dependent last-write-wins);
the built document is that merge plus the defaulted `primaryEmail`. -/
theorem to_schema_last_mapping_wins (c : Client) (u : GUser)
    (m1 m2 : Mapping)
    (hmaps : c.provider.propertyMappings = [m2, m1])
    (hlt : m1.name < m2.name)
    (hg1 : m1.isGoogleMapping = true) (hg2 : m2.isGoogleMapping = true)
    (he1 : m1.evaluate u = .ok (some (Value.obj [("name", Value.str "A")])))
    (he2 : m2.evaluate u = .ok (some (Value.obj [("name", Value.str "B")]))) :
    to_schema c u =
      .ok [("name", Value.str "B"), ("primaryEmail", Value.str u.email)] ∧
    lookupField "name"
      [("name", Value.str "B"), ("primaryEmail", Value.str u.email)] =
      some (Value.str "B") := by
  have hle : m1.name ≤ m2.name := le_of_lt hlt
  constructor
  · simp [to_schema, hmaps, sortMappings, insertMapping, hle, evalMappings,
      hg1, hg2, he1, he2, mergeFields, mergeInto, mergeValue,
      deleteNoneFields, lookupField]
  · rfl

/-- Mapping named "a" producing `{"name": "A"}`. -/
def m6a : Mapping := ⟨"a", true, fun _ => .ok (some (.obj [("name", .str "A")]))⟩

/-- Mapping named "b" producing `{"name": "B"}`. -/
def m6b : Mapping := ⟨"b", true, fun _ => .ok (some (.obj [("name", .str "B")]))⟩

/-- A client carrying `m6b` and `m6a` attached in reverse name order. -/
def c6 : Client := ⟨⟨7, [m6b, m6a]⟩, fun _ => true⟩

theorem to_schema_last_mapping_wins_witness :
    to_schema c6 u0 =
      .ok [("name", Value.str "B"), ("primaryEmail", Value.str "bob@example.com")] ∧
    lookupField "name"
      [("name", Value.str "B"), ("primaryEmail", Value.str "bob@example.com")] =
      some (Value.str "B") :=
  to_schema_last_mapping_wins c6 u0 m6a m6b rfl
    (by simp [m6a, m6b]; decide) rfl rfl rfl rfl

/-! Self-healing recreate (C2). -/

/-- Full evaluation of `write` on the NotFound→recreate path: the update
reports the remote object gone, the stale row is removed, and the create
path runs and succeeds. -/
theorem write_eq_of_update_notFound (c : Client) (d : Directory)
    (links : List LinkRecord) (u : GUser) (conn : LinkRecord)
    (gu rf : GDict) (pe idv : Value)
    (hlink : findLink c.provider.pk u.pk links = some conn)
    (hts : to_schema c u = .ok gu)
    (hchk : schemaChecks c gu = .ok pe)
    (hupd : d.update conn.id gu = .error .notFound)
    (hins : d.insert gu = .ok (Value.obj rf))
    (hid : lookupField "primaryEmail" rf = some idv) :
    write c d links u =
      (.ok (),
       removeFirstLink c.provider.pk u.pk links ++ [⟨c.provider.pk, u.pk, idv⟩],
       [.update conn.id gu, .insert gu]) := by
  simp [write, hlink, _update, hts, hchk, hupd, _create, hins, hid]

/-- C2: for every user whose link record points to a remote object deleted
out-of-band (the update reports `NotFound`), `write` removes the stale
link record, runs the create path (visible in the remote-call trace), and
returns successfully with a fresh link record — no permanent failure. -/
theorem write_notFound_recreates (c : Client) (d : Directory)
    (links : List LinkRecord) (u : GUser) (conn : LinkRecord)
    (gu rf : GDict) (pe idv : Value)
    (hlink : findLink c.provider.pk u.pk links = some conn)
    (hts : to_schema c u = .ok gu)
    (hchk : schemaChecks c gu = .ok pe)
    (hupd : d.update conn.id gu = .error .notFound)
    (hins : d.insert gu = .ok (Value.obj rf))
    (hid : lookupField "primaryEmail" rf = some idv) :
    (write c d links u).1 = .ok () ∧
    (write c d links u).2.1 =
      removeFirstLink c.provider.pk u.pk links ++
        [⟨c.provider.pk, u.pk, idv⟩] ∧
    (write c d links u).2.2 = [.update conn.id gu, .insert gu] := by
  rw [write_eq_of_update_notFound c d links u conn gu rf pe idv
    hlink hts hchk hupd hins hid]
  exact ⟨rfl, rfl, rfl⟩

/-- A stale link row for (provider 7, user 1). -/
def recStale : LinkRecord := ⟨7, 1, .str "stale@example.com"⟩

/-- A directory whose update reports `NotFound` and whose insert succeeds
echoing the body. -/
def dRecreate : Directory :=
  ⟨fun body => .ok (.obj body), fun _ _ => .error .notFound, fun _ => .ok .null⟩

theorem write_notFound_recreates_witness :
    (write c0 dRecreate [recStale] u0).1 = .ok () ∧
    (write c0 dRecreate [recStale] u0).2.1 =
      removeFirstLink 7 1 [recStale] ++
        [⟨7, 1, Value.str "bob@example.com"⟩] ∧
    (write c0 dRecreate [recStale] u0).2.2 =
      [.update recStale.id gu0, .insert gu0] :=
  write_notFound_recreates c0 dRecreate [recStale] u0 recStale gu0 gu0
    (.str "bob@example.com") (.str "bob@example.com")
    rfl to_schema_c0 rfl rfl rfl rfl

/-! Idempotence of `write` (C1). -/

/-- Full evaluation of `write` when no link exists and the insert
succeeds: a link row keyed by the response's `primaryEmail` is appended. -/
theorem write_eq_of_insert_ok (c : Client) (d : Directory)
    (links : List LinkRecord) (u : GUser) (gu rf : GDict) (pe idv : Value)
    (h0 : findLink c.provider.pk u.pk links = none)
    (hts : to_schema c u = .ok gu)
    (hchk : schemaChecks c gu = .ok pe)
    (hins : d.insert gu = .ok (Value.obj rf))
    (hid : lookupField "primaryEmail" rf = some idv) :
    write c d links u =
      (.ok (), links ++ [⟨c.provider.pk, u.pk, idv⟩], [.insert gu]) := by
  simp [write, h0, _create, hts, hchk, hins, hid]

/-- Full evaluation of `write` when a link exists and the update
succeeds: the link table is untouched and only an update call is made. -/
theorem write_eq_of_update_ok (c : Client) (d : Directory)
    (links : List LinkRecord) (u : GUser) (conn : LinkRecord)
    (gu : GDict) (pe ru : Value)
    (hlink : findLink c.provider.pk u.pk links = some conn)
    (hts : to_schema c u = .ok gu)
    (hchk : schemaChecks c gu = .ok pe)
    (hupd : d.update conn.id gu = .ok ru) :
    write c d links u = (.ok (), links, [.update conn.id gu]) := by
  simp [write, hlink, _update, hts, hchk, hupd]

/-- C1: starting with no link row for (provider, user) and a remote whose
insert and subsequent update succeed unchanged, `write` twice is
idempotent: the first call issues the create (insert) and adds one link
row; the second call takes the update branch — its remote-call trace is
exactly one update, no insert — leaves the table unchanged, and exactly
one link row exists afterwards. -/
theorem write_twice_idempotent (c : Client) (d : Directory)
    (links : List LinkRecord) (u : GUser) (gu rf : GDict) (pe idv ru : Value)
    (hcount : countLinks c.provider.pk u.pk links = 0)
    (hts : to_schema c u = .ok gu)
    (hchk : schemaChecks c gu = .ok pe)
    (hins : d.insert gu = .ok (Value.obj rf))
    (hid : lookupField "primaryEmail" rf = some idv)
    (hupd : d.update idv gu = .ok ru) :
    (write c d links u).1 = .ok () ∧
    (write c d links u).2.2 = [.insert gu] ∧
    countLinks c.provider.pk u.pk (write c d links u).2.1 = 1 ∧
    (write c d (write c d links u).2.1 u).1 = .ok () ∧
    (write c d (write c d links u).2.1 u).2.2 = [.update idv gu] ∧
    (write c d (write c d links u).2.1 u).2.1 = (write c d links u).2.1 ∧
    countLinks c.provider.pk u.pk
      (write c d (write c d links u).2.1 u).2.1 = 1 := by
  have h0 : findLink c.provider.pk u.pk links = none :=
    findLink_none_of_countLinks_zero _ _ _ hcount
  have h1 : write c d links u =
      (.ok (), links ++ [⟨c.provider.pk, u.pk, idv⟩], [.insert gu]) :=
    write_eq_of_insert_ok c d links u gu rf pe idv h0 hts hchk hins hid
  have hfind2 : findLink c.provider.pk u.pk
      (links ++ [⟨c.provider.pk, u.pk, idv⟩]) =
      some ⟨c.provider.pk, u.pk, idv⟩ :=
    findLink_append_hit _ _ _ _ h0 rfl rfl
  have hcnt1 : countLinks c.provider.pk u.pk
      (links ++ [⟨c.provider.pk, u.pk, idv⟩]) = 1 := by
    rw [countLinks_append, hcount]
    simp [countLinks]
  have h2 : write c d (links ++ [⟨c.provider.pk, u.pk, idv⟩]) u =
      (.ok (), links ++ [⟨c.provider.pk, u.pk, idv⟩], [.update idv gu]) :=
    write_eq_of_update_ok c d (links ++ [⟨c.provider.pk, u.pk, idv⟩]) u
      ⟨c.provider.pk, u.pk, idv⟩ gu pe ru hfind2 hts hchk hupd
  rw [h1]
  exact ⟨rfl, rfl, hcnt1, by rw [h2], by rw [h2], by rw [h2], by rw [h2]; exact hcnt1⟩

theorem write_twice_idempotent_witness :
    (write c0 d0 [] u0).1 = .ok () ∧
    (write c0 d0 [] u0).2.2 = [.insert gu0] ∧
    countLinks 7 1 (write c0 d0 [] u0).2.1 = 1 ∧
    (write c0 d0 (write c0 d0 [] u0).2.1 u0).1 = .ok () ∧
    (write c0 d0 (write c0 d0 [] u0).2.1 u0).2.2 =
      [.update (.str "bob@example.com") gu0] ∧
    (write c0 d0 (write c0 d0 [] u0).2.1 u0).2.1 = (write c0 d0 [] u0).2.1 ∧
    countLinks 7 1 (write c0 d0 (write c0 d0 [] u0).2.1 u0).2.1 = 1 :=
  write_twice_idempotent c0 d0 [] u0 gu0 gu0 (.str "bob@example.com")
    (.str "bob@example.com") .null rfl to_schema_c0 rfl rfl rfl rfl

/-! Delete with a vanished remote object (C4). -/

/-- C4 (amended): when a link record exists and the remote delete reports
`NotFound`, the exception propagates to the caller — the `delete` call is
not treated as success — and the link record is NOT removed, because the
exception aborts the transaction before the local row deletion. -/
theorem delete_notFound_propagates (c : Client) (d : Directory)
    (links : List LinkRecord) (u : GUser) (conn : LinkRecord)
    (hlink : findLink c.provider.pk u.pk links = some conn)
    (hdel : d.delete conn.id = .error .notFound) :
    (GoogleWorkspaceUserClient.delete c d links u).1 =
      .error (.sync .notFound) ∧
    (GoogleWorkspaceUserClient.delete c d links u).2.1 = links := by
  simp [GoogleWorkspaceUserClient.delete, hlink, hdel]

/-- A link row for (provider 7, user 1). -/
def rec4 : LinkRecord := ⟨7, 1, .str "bob@example.com"⟩

/-- A directory whose delete reports `NotFound`. -/
def dDelNF : Directory :=
  ⟨fun body => .ok (.obj body), fun _ _ => .ok .null, fun _ => .error .notFound⟩

theorem delete_notFound_propagates_witness :
    (GoogleWorkspaceUserClient.delete c0 dDelNF [rec4] u0).1 =
      .error (.sync .notFound) ∧
    (GoogleWorkspaceUserClient.delete c0 dDelNF [rec4] u0).2.1 = [rec4] :=
  delete_notFound_propagates c0 dDelNF [rec4] u0 rec4 rfl rfl

/-- C4 counterexample: with the remote delete reporting `NotFound`, the
call raises (it does not return a success value) and the link table still
holds the record — the claim that this is treated as success with the
link removed fails at this input. -/
theorem delete_notFound_raises_cex :
    (GoogleWorkspaceUserClient.delete c0 dDelNF [rec4] u0).1 =
      .error (.sync .notFound) ∧
    (GoogleWorkspaceUserClient.delete c0 dDelNF [rec4] u0).1 ≠ .ok none ∧
    (GoogleWorkspaceUserClient.delete c0 dDelNF [rec4] u0).2.1 = [rec4] ∧
    ([rec4] : List LinkRecord) ≠ [] :=
  ⟨rfl, fun h => Except.noConfusion h, rfl, fun h => List.noConfusion h⟩

end GW
